import Mathlib

/-!
Verification development for the device-discovery and stream-capture core of
the Om Sound framework (headers `omSoundStreamRecorder.h` and
`omSoundDeviceManager.h`).  The repository ships only the interface
declarations of `StreamRecorder` and `SoundDeviceManager`; the method bodies
live in implementation files that are not part of the repository snapshot.
The operational definitions below are therefore modelled from the
specification (and the header doc comments), as faithful state-transition
functions over the data members declared in the headers.
-/

/-- A sound frame: one block of audio samples handed to `processFrame`.
Modelled from the spec: a frame is an abstract block of samples; the
`SoundFrame` class itself is not in the repository snapshot. -/
abbrev SoundFrame := List Int

/-- Modelled from the spec: the destination-stream contract consumed by the
recorder (`SoundOutputStream` is not in the repository snapshot).  A stream
exposes `write(samples, count) -> samplesWritten` and a capability flag for
whether seeking/rewinding to the initial position is supported.  `writeResult`
gives, for a requested sample count, the number of samples the destination
reports as actually written (partial writes model underruns). -/
structure SoundOutputStream where
  canSeek : Bool
  writeResult : Nat → Nat

/-- The state of a `StreamRecorder`, with exactly the private data members
declared in `omSoundStreamRecorder.h`: the destination stream pointer (NULL
modelled as `none`), the current position relative to the initial stream
position, the maximum position reached, the recording-enabled flag, and the
cached seeking-allowed flag. -/
structure StreamRecorder where
  stream : Option SoundOutputStream
  currentStreamPosition : Nat
  currentStreamLength : Nat
  recordingEnabled : Bool
  seekingAllowed : Bool

/-- Modelled from the spec: the default constructor `StreamRecorder()` creates
a recorder without any stream to record to, inert, positioned at zero. -/
def StreamRecorder.new : StreamRecorder :=
  { stream := none
    currentStreamPosition := 0
    currentStreamLength := 0
    recordingEnabled := false
    seekingAllowed := false }

/-- Modelled from the spec: `getStream()` returns the destination stream
pointer, NULL (`none`) when no stream is set. -/
def StreamRecorder.getStream (r : StreamRecorder) : Option SoundOutputStream :=
  r.stream

/-- Modelled from the spec: `setStream(newStream)` sets/replaces/clears the
destination; it always resets the current position and observed length to the
destination's starting point (zero relative offset); it does not implicitly
change the recording-enabled flag, but if the new stream is NULL the recorder
is deactivated (recording forced off); the seeking-allowed flag is cached
from the destination's capability. -/
def StreamRecorder.setStream (r : StreamRecorder) (newStream : Option SoundOutputStream) :
    StreamRecorder :=
  { stream := newStream
    currentStreamPosition := 0
    currentStreamLength := 0
    recordingEnabled :=
      match newStream with
      | none => false
      | some _ => r.recordingEnabled
    seekingAllowed :=
      match newStream with
      | none => false
      | some s => s.canSeek }

/-- Modelled from the spec: `record()` attempts the transition into the
recording state.  It succeeds (returns true, setting the recording-enabled
flag) only if a valid destination stream is set; otherwise it returns false
and leaves the recorder unchanged. -/
def StreamRecorder.record (r : StreamRecorder) : Bool × StreamRecorder :=
  match r.stream with
  | some _ => (true, { r with recordingEnabled := true })
  | none => (false, r)

/-- Modelled from the spec: `stop()` stops recording and keeps the record
head at the last position (no rewind). -/
def StreamRecorder.stop (r : StreamRecorder) : StreamRecorder :=
  { r with recordingEnabled := false }

/-- Modelled from the spec: `rewind()` resets the recording position to the
first position within the stream.  It succeeds only if the destination
supports seeking (always fails otherwise, leaving the position unchanged),
and it does not affect the recording state of the recorder. -/
def StreamRecorder.rewind (r : StreamRecorder) : Bool × StreamRecorder :=
  if r.seekingAllowed then (true, { r with currentStreamPosition := 0 })
  else (false, r)

/-- Modelled from the spec: `processFrame(input, output, numSamples)`.
If recording is enabled and a valid destination exists, the recorder writes
`numSamples` samples from the input block to the destination at the current
position, advances the current position by the number of samples the
destination reports as actually written (partial I/O is a non-fatal underrun),
and updates the observed length to the maximum of itself and the new
position.  Regardless of recording state the input block is passed through to
the output unchanged, and the returned `SoundResult` is the full block size
(no error is surfaced to the caller). -/
def StreamRecorder.processFrame (r : StreamRecorder) (inputFrame : SoundFrame)
    (numSamples : Nat) : StreamRecorder × SoundFrame × Nat :=
  match r.stream, r.recordingEnabled with
  | some s, true =>
      let written := s.writeResult numSamples
      let newPosition := r.currentStreamPosition + written
      ({ r with
          currentStreamPosition := newPosition
          currentStreamLength := max r.currentStreamLength newPosition },
       inputFrame, numSamples)
  | some _, false => (r, inputFrame, numSamples)
  | none, _ => (r, inputFrame, numSamples)

/-- Iterate `processFrame` over `n` successive blocks of `s` samples each,
modelling a recording session of N blocks as in the spec's testable
property 7. -/
def StreamRecorder.processBlocks (frame : SoundFrame) (s : Nat) :
    Nat → StreamRecorder → StreamRecorder
  | 0, r => r
  | Nat.succ n, r => StreamRecorder.processBlocks frame s n (r.processFrame frame s).1

/-- An identifier for one audio device endpoint.  Modelled from the spec:
`SoundDeviceID` (declared in `omSoundDeviceID.h`, not in the repository
snapshot) is an opaque comparable handle with a reserved invalid sentinel. -/
structure SoundDeviceID where
  deviceID : Nat
deriving DecidableEq

/-- Modelled from the spec: the reserved invalid sentinel value
`SoundDeviceID::INVALID_DEVICE`, returned by queries to signal absence. -/
def SoundDeviceID.INVALID_DEVICE : SoundDeviceID := { deviceID := 0 }

/-- Modelled from the spec: one notification event fanned out to the device
manager delegate — device added, device removed, or a default-device
change. -/
inductive DeviceEvent where
  | deviceAdded (id : SoundDeviceID)
  | deviceRemoved (id : SoundDeviceID)
  | defaultInputChanged
  | defaultOutputChanged
deriving DecidableEq

/-- Modelled from the spec: a snapshot of the platform-integration contract
consumed by the device manager — the ordered sequence of currently connected
devices as the OS enumerates them, and the indices of the default input and
output devices within that sequence. -/
structure PlatformDevices where
  connected : List SoundDeviceID
  defaultInputIndex : Nat
  defaultOutputIndex : Nat
deriving DecidableEq

/-- The state of a `SoundDeviceManager`, with the data members declared in
`omSoundDeviceManager.h`: the cached array of device IDs, the default input
and output device indices, the active delegate (modelled as an opaque
identifier), and the has-cached-devices flag.  `enumerationCount` is model
instrumentation counting how many platform enumerations have been performed,
used to state the lazy-caching property. -/
structure SoundDeviceManager where
  devices : List SoundDeviceID
  defaultInputDeviceIndex : Nat
  defaultOutputDeviceIndex : Nat
  delegate : Nat
  hasCachedDevices : Bool
  enumerationCount : Nat
deriving DecidableEq

/-- Modelled from the spec: the constructor `SoundDeviceManager()` creates a
manager with an empty cache and the has-cached-devices flag unset; no
platform enumeration has occurred yet (lazy caching). -/
def SoundDeviceManager.new : SoundDeviceManager :=
  { devices := []
    defaultInputDeviceIndex := 0
    defaultOutputDeviceIndex := 0
    delegate := 0
    hasCachedDevices := false
    enumerationCount := 0 }

/-- Modelled from the spec: `refresh()` forces re-enumeration of all
connected devices and both default-device selections, regardless of cache
state.  It replaces the cached device sequence and default indices, sets the
has-cached-devices flag, and invokes delegate callbacks for devices added
since the last cache, devices removed since the last cache, and
default-device changes, computed as a set difference between old and new
cached state.  Every notification is delivered to the currently active
delegate; the returned list pairs each event with that delegate. -/
def SoundDeviceManager.refresh (p : PlatformDevices) (m : SoundDeviceManager) :
    SoundDeviceManager × List (Nat × DeviceEvent) :=
  let newDevices := p.connected
  let added := newDevices.filter (fun d => decide (¬ d ∈ m.devices))
  let removed := m.devices.filter (fun d => decide (¬ d ∈ newDevices))
  let defaultEvents :=
    (if m.defaultInputDeviceIndex ≠ p.defaultInputIndex then
        [DeviceEvent.defaultInputChanged] else []) ++
    (if m.defaultOutputDeviceIndex ≠ p.defaultOutputIndex then
        [DeviceEvent.defaultOutputChanged] else [])
  let events :=
    added.map DeviceEvent.deviceAdded ++ removed.map DeviceEvent.deviceRemoved ++
      defaultEvents
  ({ m with
      devices := newDevices
      defaultInputDeviceIndex := p.defaultInputIndex
      defaultOutputDeviceIndex := p.defaultOutputIndex
      hasCachedDevices := true
      enumerationCount := m.enumerationCount + 1 },
   events.map (fun e => (m.delegate, e)))

/-- Modelled from the spec: the internal helper `cacheDevices()`, invoked by
every read accessor before consulting cached state; if the has-cached-devices
flag is unset it performs the same work as `refresh` once (setting the flag),
otherwise it does nothing. -/
def SoundDeviceManager.cacheDevices (p : PlatformDevices) (m : SoundDeviceManager) :
    SoundDeviceManager × List (Nat × DeviceEvent) :=
  if m.hasCachedDevices then (m, []) else m.refresh p

/-- Modelled from the spec: `getDeviceCount()` ensures the device cache is
populated and returns the length of the cached device sequence. -/
def SoundDeviceManager.getDeviceCount (p : PlatformDevices) (m : SoundDeviceManager) :
    Nat × SoundDeviceManager :=
  let mc := (m.cacheDevices p).1
  (mc.devices.length, mc)

/-- Modelled from the spec: `getDeviceID(deviceIndex)` ensures the device
cache is populated and returns the identifier at the given index in the
cached sequence, or `SoundDeviceID.INVALID_DEVICE` when the index is
out-of-bounds (a no-throw contract; never a failure). -/
def SoundDeviceManager.getDeviceID (p : PlatformDevices) (i : Nat) (m : SoundDeviceManager) :
    SoundDeviceID × SoundDeviceManager :=
  let mc := (m.cacheDevices p).1
  ((if h : i < mc.devices.length then mc.devices.get ⟨i, h⟩
    else SoundDeviceID.INVALID_DEVICE), mc)

/-- Modelled from the spec: `setDelegate(newDelegate)` replaces the active
delegate; after the swap the old delegate receives no further calls. -/
def SoundDeviceManager.setDelegate (d : Nat) (m : SoundDeviceManager) : SoundDeviceManager :=
  { m with delegate := d }

/-- Fold a sequence of explicit `refresh()` calls, each against the platform
snapshot current at that moment, discarding the delegate notifications. -/
def SoundDeviceManager.runRefreshes (ps : List PlatformDevices) (m : SoundDeviceManager) :
    SoundDeviceManager :=
  ps.foldl (fun acc p => (SoundDeviceManager.refresh p acc).1) m

/-- One control-context operation on the device manager, for stating trace
properties: an explicit refresh, a delegate replacement, or a read
accessor (each against the platform snapshot current at that moment). -/
inductive ManagerOp where
  | refreshOp (p : PlatformDevices)
  | setDelegateOp (d : Nat)
  | getDeviceCountOp (p : PlatformDevices)
  | getDeviceIDOp (p : PlatformDevices) (i : Nat)
deriving DecidableEq

/-- Execute one `ManagerOp`, returning the new manager state and the
notifications (delegate, event) emitted by the operation. -/
def SoundDeviceManager.step :
    ManagerOp → SoundDeviceManager → SoundDeviceManager × List (Nat × DeviceEvent)
  | ManagerOp.refreshOp p, m => m.refresh p
  | ManagerOp.setDelegateOp d, m => (m.setDelegate d, [])
  | ManagerOp.getDeviceCountOp p, m => ((m.getDeviceCount p).2, (m.cacheDevices p).2)
  | ManagerOp.getDeviceIDOp p i, m => ((m.getDeviceID p i).2, (m.cacheDevices p).2)

/-- Execute a sequence of `ManagerOp`s, accumulating every notification
emitted along the way in order. -/
def SoundDeviceManager.runOps :
    List ManagerOp → SoundDeviceManager → SoundDeviceManager × List (Nat × DeviceEvent)
  | [], m => (m, [])
  | op :: ops, m =>
      let s := SoundDeviceManager.step op m
      let rest := SoundDeviceManager.runOps ops s.1
      (rest.1, s.2 ++ rest.2)

/-- Concrete destination stream whose writes are always full (identity write
behavior) and that supports seeking; used as a witness fixture. -/
def fullStream : SoundOutputStream := { canSeek := true, writeResult := fun k => k }

/-- Concrete destination stream that does not support seeking; writes are
full.  Used as a witness fixture. -/
def noSeekStream : SoundOutputStream := { canSeek := false, writeResult := fun k => k }

/-- Concrete destination stream whose writes are always short (half of each
request), modelling a recording underrun; used as a witness fixture. -/
def halfStream : SoundOutputStream := { canSeek := true, writeResult := fun k => k / 2 }

/-- A recorder that is recording to `fullStream`, obtained through the public
interface; used as a witness fixture. -/
def armedRecorder : StreamRecorder :=
  ((StreamRecorder.new.setStream (some fullStream)).record).2

/-- A recorder that is recording to `halfStream` (a destination that only
performs short writes), obtained through the public interface; used as a
witness fixture. -/
def underrunRecorder : StreamRecorder :=
  ((StreamRecorder.new.setStream (some halfStream)).record).2

/-- A recorder whose destination does not support seeking, obtained through
the public interface; used as a witness fixture. -/
def noSeekRecorder : StreamRecorder :=
  ((StreamRecorder.new.setStream (some noSeekStream)).record).2

/-- Concrete platform snapshot with a single connected device; used as a
witness fixture. -/
def oneDeviceSnapshot : PlatformDevices :=
  { connected := [{ deviceID := 5 }], defaultInputIndex := 0, defaultOutputIndex := 0 }

/-- Concrete platform snapshot with two connected devices; used as a witness
fixture. -/
def twoDeviceSnapshot : PlatformDevices :=
  { connected := [{ deviceID := 7 }, { deviceID := 9 }]
    defaultInputIndex := 0
    defaultOutputIndex := 1 }

/-- A freshly constructed device manager whose active delegate is the opaque
delegate identifier 1; used as a witness fixture. -/
def delegateOneManager : SoundDeviceManager :=
  { SoundDeviceManager.new with delegate := 1 }

/-- `processFrame` never changes which destination stream is installed. -/
theorem StreamRecorder.processFrame_stream_eq (r : StreamRecorder) (f : SoundFrame)
    (n : Nat) : ((r.processFrame f n).1).stream = r.stream := by
  unfold StreamRecorder.processFrame
  cases h : r.stream <;> cases hb : r.recordingEnabled <;> simp [h, hb]

/-- `processFrame` never changes the recording-enabled flag. -/
theorem StreamRecorder.processFrame_recordingEnabled_eq (r : StreamRecorder)
    (f : SoundFrame) (n : Nat) :
    ((r.processFrame f n).1).recordingEnabled = r.recordingEnabled := by
  unfold StreamRecorder.processFrame
  cases h : r.stream <;> cases hb : r.recordingEnabled <;> simp [hb]

/-- While recording to a valid destination, one `processFrame` call advances
the position by the number of samples the destination reports written, and
updates the observed length to the maximum of itself and the new position. -/
theorem StreamRecorder.processFrame_stats (r : StreamRecorder) (st : SoundOutputStream)
    (f : SoundFrame) (n : Nat)
    (hs : r.stream = some st) (hr : r.recordingEnabled = true) :
    ((r.processFrame f n).1).currentStreamPosition
        = r.currentStreamPosition + st.writeResult n ∧
    ((r.processFrame f n).1).currentStreamLength
        = max r.currentStreamLength (r.currentStreamPosition + st.writeResult n) := by
  unfold StreamRecorder.processFrame
  simp [hs, hr]

/-- `record` succeeds and only sets the recording-enabled flag whenever a
destination stream is installed. -/
theorem StreamRecorder.record_of_stream_some (r : StreamRecorder) (st : SoundOutputStream)
    (h : r.stream = some st) :
    r.record = (true, { r with recordingEnabled := true }) := by
  unfold StreamRecorder.record
  rw [h]

/-- C1: For every input frame, output frame, and sample count,
`StreamRecorder::processFrame` passes the input block through to the output
unchanged, regardless of the recording-enabled flag and regardless of whether
a destination stream is set (pass-through invariant). -/
theorem processFrame_passthrough (r : StreamRecorder) (inputFrame : SoundFrame)
    (numSamples : Nat) :
    (r.processFrame inputFrame numSamples).2.1 = inputFrame := by
  unfold StreamRecorder.processFrame
  cases h : r.stream <;> cases hb : r.recordingEnabled <;> simp [h, hb]

/-- C3: `StreamRecorder::record()` returns true and sets the
recording-enabled flag if and only if a valid destination stream is set; when
no destination is set it returns false and leaves the recorder's entire state
unchanged. -/
theorem record_spec (r : StreamRecorder) :
    ((r.record).1 = true ↔ r.stream.isSome = true) ∧
    (r.stream.isSome = true →
      (r.record).2 = { r with recordingEnabled := true }) ∧
    (r.stream = none → r.record = (false, r)) := by
  unfold StreamRecorder.record
  cases h : r.stream <;> simp [h]

/-- C3 witness: on a default-constructed recorder (no destination), `record`
returns false and the state is unchanged. -/
theorem record_spec_witness :
    StreamRecorder.new.record = (false, StreamRecorder.new) :=
  (record_spec StreamRecorder.new).2.2 rfl

/-- C4: `StreamRecorder::setStream` always resets `currentStreamPosition` and
`currentStreamLength` to zero; when the argument is NULL the
recording-enabled flag is forced to false; when the argument is a valid
stream the recording-enabled flag is not implicitly changed. -/
theorem setStream_spec (r : StreamRecorder) (os : Option SoundOutputStream) :
    (r.setStream os).currentStreamPosition = 0 ∧
    (r.setStream os).currentStreamLength = 0 ∧
    (os = none → (r.setStream os).recordingEnabled = false) ∧
    (os.isSome = true → (r.setStream os).recordingEnabled = r.recordingEnabled) := by
  cases os <;> simp [StreamRecorder.setStream]

/-- C4 witness: replacing the destination of a recorder that is recording
with another valid stream keeps the recording-enabled flag true, while
clearing the destination forces it to false. -/
theorem setStream_spec_witness :
    (armedRecorder.setStream (some noSeekStream)).recordingEnabled = true ∧
    (armedRecorder.setStream none).recordingEnabled = false := by
  constructor
  · have h := (setStream_spec armedRecorder (some noSeekStream)).2.2.2 rfl
    exact h.trans rfl
  · exact (setStream_spec armedRecorder none).2.2.1 rfl

/-- C5: `StreamRecorder::rewind()` returns true if and only if the
destination supports seeking; on failure it leaves the recorder unchanged
(in particular `currentStreamPosition`); on success it resets
`currentStreamPosition` to zero; in no case does it alter the
recording-enabled flag.  The recorder's seeking-allowed flag is cached from
the destination's capability when the stream is set. -/
theorem rewind_spec (r : StreamRecorder) (st : SoundOutputStream) :
    ((r.rewind).1 = true ↔ r.seekingAllowed = true) ∧
    ((r.rewind).1 = false → (r.rewind).2 = r) ∧
    ((r.rewind).1 = true → ((r.rewind).2).currentStreamPosition = 0) ∧
    (((r.rewind).2).recordingEnabled = r.recordingEnabled) ∧
    ((r.setStream (some st)).seekingAllowed = st.canSeek) := by
  unfold StreamRecorder.rewind
  cases h : r.seekingAllowed <;> simp [h, StreamRecorder.setStream]

/-- C5 witness: on a recorder whose destination does not support seeking,
`rewind` fails and changes nothing; on one whose destination does, `rewind`
resets the position to zero. -/
theorem rewind_spec_witness :
    ((noSeekRecorder.rewind).2 = noSeekRecorder) ∧
    (((armedRecorder.rewind).2).currentStreamPosition = 0) := by
  constructor
  · exact (rewind_spec noSeekRecorder noSeekStream).2.1 rfl
  · exact (rewind_spec armedRecorder fullStream).2.2.1 rfl

/-- C6: while recording, if the destination's write reports fewer samples
written than requested (partial I/O), `processFrame` advances
`currentStreamPosition` only by the number of samples actually written,
leaves the recording-enabled flag true (no automatic abort), and surfaces no
error to the caller (the returned result is the full block size). -/
theorem processFrame_underrun (r : StreamRecorder) (st : SoundOutputStream)
    (inputFrame : SoundFrame) (numSamples : Nat)
    (hstream : r.stream = some st) (hrec : r.recordingEnabled = true) :
    ((r.processFrame inputFrame numSamples).1).currentStreamPosition
        = r.currentStreamPosition + st.writeResult numSamples ∧
    ((r.processFrame inputFrame numSamples).1).recordingEnabled = true ∧
    (r.processFrame inputFrame numSamples).2.2 = numSamples := by
  unfold StreamRecorder.processFrame
  simp [hstream, hrec]

/-- C6 witness: recording a 4-sample block to a destination that only writes
half of each request advances the position by 2 only, keeps recording
enabled, and reports the full 4-sample result. -/
theorem processFrame_underrun_witness :
    ((underrunRecorder.processFrame [] 4).1).currentStreamPosition = 2 ∧
    ((underrunRecorder.processFrame [] 4).1).recordingEnabled = true ∧
    (underrunRecorder.processFrame [] 4).2.2 = 4 := by
  have h := processFrame_underrun underrunRecorder halfStream [] 4 rfl rfl
  exact ⟨h.1.trans rfl, h.2.1, h.2.2⟩

/-- C10: `StreamRecorder::getStream()` returns exactly the destination most
recently installed: after `setStream(p)` it returns `p`; after
`setStream(NULL)` and on a default-constructed recorder it returns NULL; no
other operation (`record`, `stop`, `rewind`, `processFrame`) changes which
stream `getStream()` returns. -/
theorem getStream_spec (r : StreamRecorder) (os : Option SoundOutputStream)
    (inputFrame : SoundFrame) (numSamples : Nat) :
    (r.setStream os).getStream = os ∧
    StreamRecorder.new.getStream = none ∧
    ((r.record).2).getStream = r.getStream ∧
    (r.stop).getStream = r.getStream ∧
    ((r.rewind).2).getStream = r.getStream ∧
    ((r.processFrame inputFrame numSamples).1).getStream = r.getStream := by
  refine ⟨rfl, rfl, ?_, rfl, ?_, ?_⟩
  · unfold StreamRecorder.record
    cases h : r.stream <;> simp [StreamRecorder.getStream, h]
  · unfold StreamRecorder.rewind
    cases h : r.seekingAllowed <;> simp [StreamRecorder.getStream, h]
  · exact StreamRecorder.processFrame_stream_eq r inputFrame numSamples

/-- Core induction for a recording session: while recording to a destination
whose writes of `s` samples are full, `n` blocks preserve the stream and the
recording flag, advance the position by `n * s`, and set the observed length
to the maximum of the starting length and the final position (or leave it
unchanged when `n = 0`). -/
theorem processBlocks_stats (st : SoundOutputStream) (frame : SoundFrame) (s : Nat)
    (hfull : st.writeResult s = s) :
    ∀ (n : Nat) (r : StreamRecorder), r.stream = some st → r.recordingEnabled = true →
      (StreamRecorder.processBlocks frame s n r).stream = some st ∧
      (StreamRecorder.processBlocks frame s n r).recordingEnabled = true ∧
      (StreamRecorder.processBlocks frame s n r).currentStreamPosition
          = r.currentStreamPosition + n * s ∧
      (StreamRecorder.processBlocks frame s n r).currentStreamLength
          = if n = 0 then r.currentStreamLength
            else max r.currentStreamLength (r.currentStreamPosition + n * s) := by
  intro n
  induction n with
  | zero =>
      intro r hs hr
      simp [StreamRecorder.processBlocks, hs, hr]
  | succ n ih =>
      intro r hs hr
      have hstep := StreamRecorder.processFrame_stats r st frame s hs hr
      have hs1 : ((r.processFrame frame s).1).stream = some st := by
        rw [StreamRecorder.processFrame_stream_eq, hs]
      have hr1 : ((r.processFrame frame s).1).recordingEnabled = true := by
        rw [StreamRecorder.processFrame_recordingEnabled_eq, hr]
      have hrun : StreamRecorder.processBlocks frame s (Nat.succ n) r
          = StreamRecorder.processBlocks frame s n (r.processFrame frame s).1 := rfl
      obtain ⟨ha, hb, hc, hd⟩ := ih (r.processFrame frame s).1 hs1 hr1
      rw [hrun]
      refine ⟨ha, hb, ?_, ?_⟩
      · rw [hc, hstep.1, hfull, Nat.succ_mul]
        ring
      · rw [hd, hstep.1, hstep.2, hfull, if_neg (Nat.succ_ne_zero n), Nat.succ_mul]
        by_cases hn : n = 0
        · subst hn
          simp
        · rw [if_neg hn]
          generalize r.currentStreamPosition = a
          generalize r.currentStreamLength = b
          generalize n * s = c
          omega

/-- C2: starting from a recorder that is recording to a valid destination
with a fresh session (observed length equal to the position) and assuming
every destination write is full, processing `n` blocks of `s` samples
advances `currentStreamPosition` by exactly `n * s` and makes
`currentStreamLength` equal that same value; a subsequent `stop()` preserves
the position (no rewind), and a following `record()` succeeds and resumes at
the preserved position, not at zero. -/
theorem recording_session_spec (r : StreamRecorder) (st : SoundOutputStream)
    (frame : SoundFrame) (n s : Nat)
    (hstream : r.stream = some st) (hrec : r.recordingEnabled = true)
    (hfull : st.writeResult s = s)
    (hlen : r.currentStreamLength = r.currentStreamPosition) :
    (StreamRecorder.processBlocks frame s n r).currentStreamPosition
        = r.currentStreamPosition + n * s ∧
    (StreamRecorder.processBlocks frame s n r).currentStreamLength
        = r.currentStreamPosition + n * s ∧
    ((StreamRecorder.processBlocks frame s n r).stop).currentStreamPosition
        = r.currentStreamPosition + n * s ∧
    (((StreamRecorder.processBlocks frame s n r).stop).record).1 = true ∧
    ((((StreamRecorder.processBlocks frame s n r).stop).record).2).currentStreamPosition
        = r.currentStreamPosition + n * s := by
  obtain ⟨ha, hb, hc, hd⟩ := processBlocks_stats st frame s hfull n r hstream hrec
  have hstopStream : ((StreamRecorder.processBlocks frame s n r).stop).stream = some st := ha
  have hrecord := StreamRecorder.record_of_stream_some
    ((StreamRecorder.processBlocks frame s n r).stop) st hstopStream
  have hlenEq : (StreamRecorder.processBlocks frame s n r).currentStreamLength
      = r.currentStreamPosition + n * s := by
    rw [hd, hlen]
    by_cases hn : n = 0
    · subst hn
      simp
    · rw [if_neg hn]
      generalize r.currentStreamPosition = a
      generalize n * s = c
      omega
  refine ⟨hc, hlenEq, hc, ?_, ?_⟩
  · rw [hrecord]
  · rw [hrecord]
    exact hc

/-- C2 witness: a fresh recorder armed on a full-writing destination, after
2 blocks of 3 samples, sits at position 6 with length 6; stopping preserves
position 6, and re-arming succeeds, still at position 6. -/
theorem recording_session_witness :
    (StreamRecorder.processBlocks [] 3 2 armedRecorder).currentStreamPosition = 6 ∧
    (StreamRecorder.processBlocks [] 3 2 armedRecorder).currentStreamLength = 6 ∧
    ((StreamRecorder.processBlocks [] 3 2 armedRecorder).stop).currentStreamPosition = 6 ∧
    (((StreamRecorder.processBlocks [] 3 2 armedRecorder).stop).record).1 = true ∧
    ((((StreamRecorder.processBlocks [] 3 2 armedRecorder).stop).record).2).currentStreamPosition = 6 := by
  have h := recording_session_spec armedRecorder fullStream [] 2 3 rfl rfl rfl rfl
  exact ⟨h.1.trans rfl, h.2.1.trans rfl, h.2.2.1.trans rfl, h.2.2.2.1, h.2.2.2.2.trans rfl⟩

/-- `refresh` always marks the device cache as populated. -/
theorem SoundDeviceManager.refresh_hasCachedDevices (p : PlatformDevices)
    (m : SoundDeviceManager) : ((m.refresh p).1).hasCachedDevices = true := rfl

/-- `refresh` does not change the active delegate. -/
theorem SoundDeviceManager.refresh_delegate (p : PlatformDevices)
    (m : SoundDeviceManager) : ((m.refresh p).1).delegate = m.delegate := rfl

/-- A populated device cache stays populated across any sequence of
refreshes. -/
theorem SoundDeviceManager.runRefreshes_cached (ps : List PlatformDevices)
    (m : SoundDeviceManager) (h : m.hasCachedDevices = true) :
    (SoundDeviceManager.runRefreshes ps m).hasCachedDevices = true := by
  induction ps generalizing m with
  | nil => exact h
  | cons p ps ih => exact ih ((m.refresh p).1) rfl

/-- When the cache is already populated, `cacheDevices` changes nothing and
emits no notifications. -/
theorem SoundDeviceManager.cacheDevices_of_cached (p : PlatformDevices)
    (m : SoundDeviceManager) (h : m.hasCachedDevices = true) :
    m.cacheDevices p = (m, []) := by
  unfold SoundDeviceManager.cacheDevices
  rw [h]
  simp

/-- `cacheDevices` does not change the active delegate. -/
theorem SoundDeviceManager.cacheDevices_delegate (p : PlatformDevices)
    (m : SoundDeviceManager) : ((m.cacheDevices p).1).delegate = m.delegate := by
  unfold SoundDeviceManager.cacheDevices
  split <;> rfl

/-- Every notification emitted by `refresh` is addressed to the manager's
currently active delegate. -/
theorem SoundDeviceManager.refresh_events_delegate (p : PlatformDevices)
    (m : SoundDeviceManager) :
    ∀ ev ∈ (m.refresh p).2, ev.1 = m.delegate := by
  intro ev hev
  unfold SoundDeviceManager.refresh at hev
  simp only [List.mem_map] at hev
  obtain ⟨e, _, rfl⟩ := hev
  rfl

/-- Every notification emitted by `cacheDevices` is addressed to the
manager's currently active delegate. -/
theorem SoundDeviceManager.cacheDevices_events_delegate (p : PlatformDevices)
    (m : SoundDeviceManager) :
    ∀ ev ∈ (m.cacheDevices p).2, ev.1 = m.delegate := by
  intro ev hev
  unfold SoundDeviceManager.cacheDevices at hev
  by_cases h : m.hasCachedDevices
  · rw [if_pos h] at hev
    simp at hev
  · rw [if_neg h] at hev
    exact SoundDeviceManager.refresh_events_delegate p m ev hev

/-- Every notification emitted by one `step` is addressed to the manager's
currently active delegate. -/
theorem SoundDeviceManager.step_events_delegate (op : ManagerOp)
    (m : SoundDeviceManager) :
    ∀ ev ∈ (SoundDeviceManager.step op m).2, ev.1 = m.delegate := by
  cases op with
  | refreshOp p => exact SoundDeviceManager.refresh_events_delegate p m
  | setDelegateOp d => intro ev hev; simp [SoundDeviceManager.step] at hev
  | getDeviceCountOp p => exact SoundDeviceManager.cacheDevices_events_delegate p m
  | getDeviceIDOp p i => exact SoundDeviceManager.cacheDevices_events_delegate p m

/-- If the current delegate differs from `dOld` and a step is not a delegate
replacement installing `dOld`, the delegate after the step still differs from
`dOld`. -/
theorem SoundDeviceManager.step_delegate_ne (op : ManagerOp) (m : SoundDeviceManager)
    (dOld : Nat) (hm : m.delegate ≠ dOld)
    (hop : ∀ d, op = ManagerOp.setDelegateOp d → d ≠ dOld) :
    ((SoundDeviceManager.step op m).1).delegate ≠ dOld := by
  cases op with
  | refreshOp p => exact hm
  | setDelegateOp d => exact hop d rfl
  | getDeviceCountOp p =>
      show ((m.cacheDevices p).1).delegate ≠ dOld
      rw [SoundDeviceManager.cacheDevices_delegate]
      exact hm
  | getDeviceIDOp p i =>
      show ((m.cacheDevices p).1).delegate ≠ dOld
      rw [SoundDeviceManager.cacheDevices_delegate]
      exact hm

/-- If the current delegate differs from `dOld` and no operation in the
sequence installs `dOld` as delegate, then no notification emitted while
running the sequence is addressed to `dOld`. -/
theorem SoundDeviceManager.runOps_no_events_for (ops : List ManagerOp)
    (m : SoundDeviceManager) (dOld : Nat) (hm : m.delegate ≠ dOld)
    (hops : ∀ d, ManagerOp.setDelegateOp d ∈ ops → d ≠ dOld) :
    ∀ ev ∈ (SoundDeviceManager.runOps ops m).2, ev.1 ≠ dOld := by
  induction ops generalizing m with
  | nil =>
      intro ev hev
      simp [SoundDeviceManager.runOps] at hev
  | cons op ops ih =>
      intro ev hev
      have hev2 : ev ∈ (SoundDeviceManager.step op m).2 ++
          (SoundDeviceManager.runOps ops (SoundDeviceManager.step op m).1).2 := hev
      rw [List.mem_append] at hev2
      rcases hev2 with h1 | h2
      · rw [SoundDeviceManager.step_events_delegate op m ev h1]
        exact hm
      · have hm2 := SoundDeviceManager.step_delegate_ne op m dOld hm
          (fun d hd => hops d (by rw [hd]; exact List.mem_cons_self _ _))
        exact ih ((SoundDeviceManager.step op m).1) hm2
          (fun d hd => hops d (List.mem_cons_of_mem _ hd)) ev h2

/-- C7: after every sequence of refreshes, `getDeviceCount()` equals the
length of the most recently cached device sequence (which is the device
sequence of the last refresh's platform snapshot), and `getDeviceID(i)`
returns the i-th cached identifier when `i` is in bounds and the invalid
sentinel `SoundDeviceID.INVALID_DEVICE` (never a failure) when `i` is
out-of-bounds. -/
theorem deviceCount_deviceID_spec (ps : List PlatformDevices) (plast q : PlatformDevices)
    (m : SoundDeviceManager) (h : m.hasCachedDevices = true) (i : Nat) :
    ((SoundDeviceManager.runRefreshes ps m).getDeviceCount q).1
        = (SoundDeviceManager.runRefreshes ps m).devices.length ∧
    (SoundDeviceManager.runRefreshes (ps ++ [plast]) m).devices = plast.connected ∧
    (∀ hi : i < (SoundDeviceManager.runRefreshes ps m).devices.length,
      ((SoundDeviceManager.runRefreshes ps m).getDeviceID q i).1
        = (SoundDeviceManager.runRefreshes ps m).devices.get ⟨i, hi⟩) ∧
    ((SoundDeviceManager.runRefreshes ps m).devices.length ≤ i →
      ((SoundDeviceManager.runRefreshes ps m).getDeviceID q i).1
        = SoundDeviceID.INVALID_DEVICE) := by
  have hc := SoundDeviceManager.runRefreshes_cached ps m h
  have hcache := SoundDeviceManager.cacheDevices_of_cached q
    (SoundDeviceManager.runRefreshes ps m) hc
  refine ⟨?_, ?_, ?_, ?_⟩
  · unfold SoundDeviceManager.getDeviceCount
    rw [hcache]
  · unfold SoundDeviceManager.runRefreshes
    rw [List.foldl_append]
    rfl
  · intro hi
    unfold SoundDeviceManager.getDeviceID
    rw [hcache]
    simp only
    rw [dif_pos hi]
  · intro hle
    unfold SoundDeviceManager.getDeviceID
    rw [hcache]
    simp only
    rw [dif_neg (Nat.not_lt.mpr hle)]

/-- C7 witness: after refreshing against a two-device snapshot, the count is
2, index 1 yields the second cached identifier, and index 2 (out-of-bounds)
yields the invalid sentinel. -/
theorem deviceCount_deviceID_witness :
    ((SoundDeviceManager.runRefreshes [twoDeviceSnapshot]
        (SoundDeviceManager.new.refresh oneDeviceSnapshot).1).getDeviceCount
        twoDeviceSnapshot).1 = 2 ∧
    ((SoundDeviceManager.runRefreshes [twoDeviceSnapshot]
        (SoundDeviceManager.new.refresh oneDeviceSnapshot).1).getDeviceID
        twoDeviceSnapshot 2).1 = SoundDeviceID.INVALID_DEVICE := by
  have h := deviceCount_deviceID_spec [twoDeviceSnapshot] twoDeviceSnapshot
    twoDeviceSnapshot (SoundDeviceManager.new.refresh oneDeviceSnapshot).1 rfl 2
  exact ⟨h.1.trans rfl, h.2.2.2 (by decide)⟩

/-- C8: a freshly constructed `SoundDeviceManager` has performed no platform
enumeration and its has-cached-devices flag is unset; on an uncached manager
`cacheDevices` performs the same work as `refresh`; the first read accessor
triggers exactly one enumeration and sets the flag; and on a cached manager
read accessors perform no further enumeration. -/
theorem lazy_caching_spec (p q : PlatformDevices) (i : Nat) :
    SoundDeviceManager.new.hasCachedDevices = false ∧
    SoundDeviceManager.new.enumerationCount = 0 ∧
    SoundDeviceManager.new.cacheDevices p = SoundDeviceManager.new.refresh p ∧
    ((SoundDeviceManager.new.getDeviceCount p).2).enumerationCount = 1 ∧
    ((SoundDeviceManager.new.getDeviceCount p).2).hasCachedDevices = true ∧
    (∀ m : SoundDeviceManager, m.hasCachedDevices = true →
      ((m.getDeviceCount q).2).enumerationCount = m.enumerationCount ∧
      ((m.getDeviceID q i).2).enumerationCount = m.enumerationCount ∧
      ((m.getDeviceCount q).2).hasCachedDevices = true) := by
  refine ⟨rfl, rfl, rfl, rfl, rfl, ?_⟩
  intro m hm
  have hcache := SoundDeviceManager.cacheDevices_of_cached q m hm
  refine ⟨?_, ?_, ?_⟩
  · unfold SoundDeviceManager.getDeviceCount
    rw [hcache]
  · unfold SoundDeviceManager.getDeviceID
    rw [hcache]
  · unfold SoundDeviceManager.getDeviceCount
    rw [hcache]
    exact hm

/-- C8 witness: a first accessor call on a fresh manager performs exactly one
enumeration, and a second accessor call on the resulting cached manager
performs no further enumeration. -/
theorem lazy_caching_witness :
    SoundDeviceManager.new.hasCachedDevices = false ∧
    ((SoundDeviceManager.new.getDeviceCount oneDeviceSnapshot).2).enumerationCount = 1 ∧
    ((((SoundDeviceManager.new.getDeviceCount oneDeviceSnapshot).2).getDeviceCount
        twoDeviceSnapshot).2).enumerationCount = 1 := by
  have h := lazy_caching_spec oneDeviceSnapshot twoDeviceSnapshot 0
  have h2 := h.2.2.2.2.2 (SoundDeviceManager.new.getDeviceCount oneDeviceSnapshot).2
    (h.2.2.2.2.1)
  exact ⟨h.1, h.2.2.2.1, h2.1.trans h.2.2.2.1⟩

/-- C9: after `setDelegate` replaces the active delegate, the previously
installed delegate receives no further notification for events caused by any
later sequence of operations (refreshes, accessors, further delegate
replacements), provided the old delegate is not re-installed: every emitted
notification is addressed to the delegate active at emission time, which is
never the old one. -/
theorem setDelegate_spec (m : SoundDeviceManager) (dOld dNew : Nat)
    (ops : List ManagerOp) (hne : dNew ≠ dOld)
    (hops : ∀ d, ManagerOp.setDelegateOp d ∈ ops → d ≠ dOld) :
    ∀ ev ∈ (SoundDeviceManager.runOps ops (m.setDelegate dNew)).2, ev.1 ≠ dOld :=
  SoundDeviceManager.runOps_no_events_for ops (m.setDelegate dNew) dOld hne hops

/-- C9 witness: with delegate 1 installed and then replaced by delegate 2, a
subsequent refresh that discovers one device emits its device-added
notification to delegate 2, and that notification is not addressed to the
old delegate 1. -/
theorem setDelegate_spec_witness :
    ((2 : Nat), DeviceEvent.deviceAdded { deviceID := 5 }).1 ≠ 1 :=
  setDelegate_spec delegateOneManager 1 2 [ManagerOp.refreshOp oneDeviceSnapshot]
    (by decide) (fun d hd => by simp at hd)
    ((2 : Nat), DeviceEvent.deviceAdded { deviceID := 5 }) (by decide)
